import Mathlib

/-!
Verification development for the AgroVibe plant-disease diagnosis pipeline.

The definitions below are a shallow embedding of the diagnostic core of the
repository:
  - `backend/services/disease_scraper.py` (static knowledge base and lookup),
  - `backend/services/disease_service.py` (orchestrator, reconciliation,
    confidence gate, severity calculator),
  - `backend/ml_models/disease_model.py` (trained-classifier adapter and the
    heuristic simulation),
  - `backend/services/llm_client.py` (generative-text client with retry and
    canned fallback).

Python string primitives (`split`, `in`, `lower`, `replace`) are modelled on
`List Char` with the exact semantics Python gives them for nonempty
separators (leftmost, non-overlapping).  Confidences and thresholds are
modelled as rationals; all constants compared in the source are exact
decimals, so no floating-point rounding is observable in any property
proved here.
-/

namespace AgroVibe

/-- First occurrence of the separator `sep` in `l` (leftmost match, as in
Python's `str.split` / `in`): returns the segment before the occurrence and
the remainder after it, or `none` when `sep` does not occur.  For an empty
`sep` this returns `none`; callers that need Python's convention that the
empty string occurs everywhere handle that case separately. -/
def findSep (sep : List Char) : List Char → Option (List Char × List Char)
  | [] => none
  | c :: rest =>
      if sep.isPrefixOf (c :: rest) then
        some ([], (c :: rest).drop sep.length)
      else
        match findSep sep rest with
        | some (b, a) => some (c :: b, a)
        | none => none

/-- Fuel-bounded Python `str.split` on `List Char` (nonempty separator). -/
def pySplitF (sep : List Char) : Nat → List Char → List (List Char)
  | 0, l => [l]
  | fuel + 1, l =>
      match findSep sep l with
      | none => [l]
      | some (b, a) => b :: pySplitF sep fuel a

/-- Python `s.split(sep)` for a nonempty `sep`: leftmost, non-overlapping
occurrences; `"".split(sep) = [""]`. -/
def pySplit (sep l : List Char) : List (List Char) :=
  pySplitF sep l.length l

/-- Python `needle in hay` on strings (substring containment; the empty
needle is contained in everything). -/
def containsSub (needle hay : List Char) : Bool :=
  needle.isEmpty || (findSep needle hay).isSome

/-- Python `s.replace(old, new)` for a nonempty `old`:
`new.join(s.split(old))`. -/
def pyReplace (old new s : List Char) : List Char :=
  List.intercalate new (pySplit old s)

/-- Python `needle in hay` on `String`. -/
def pyContains (needle hay : String) : Bool := containsSub needle.data hay.data

/-- Python `s.lower()` (ASCII, which is all the source uses). -/
def pyLower (s : String) : String := String.mk (s.data.map Char.toLower)

/-- Python `s.replace(old, new)` on `String`. -/
def pyReplaceS (s old new : String) : String :=
  String.mk (pyReplace old.data new.data s.data)

/-- Python `s.split(sep)` on `String`. -/
def pySplitS (sep s : String) : List String :=
  (pySplit sep.data s.data).map String.mk

theorem findSep_append (sep : List Char) :
    ∀ l b a, findSep sep l = some (b, a) → b ++ sep ++ a = l := by
  intro l
  induction l with
  | nil => intro b a h; simp [findSep] at h
  | cons c rest ih =>
    intro b a h
    rw [findSep] at h
    by_cases hp : sep.isPrefixOf (c :: rest)
    · rw [if_pos hp] at h
      simp only [Option.some.injEq, Prod.mk.injEq] at h
      obtain ⟨hb, ha⟩ := h
      obtain ⟨t, ht⟩ := List.isPrefixOf_iff_prefix.mp hp
      subst hb
      subst ha
      rw [← ht]
      simp [List.drop_left]
    · rw [if_neg hp] at h
      cases hfs : findSep sep rest with
      | none => rw [hfs] at h; cases h
      | some p =>
        obtain ⟨b1, a1⟩ := p
        rw [hfs] at h
        simp only [Option.some.injEq, Prod.mk.injEq] at h
        obtain ⟨hb, ha⟩ := h
        subst hb
        subst ha
        have hr := ih b1 a1 hfs
        simp only [List.cons_append, List.append_assoc] at hr ⊢
        rw [hr]

theorem findSep_after_length (sep : List Char) (hsep : sep ≠ [])
    (l b a : List Char) (h : findSep sep l = some (b, a)) :
    a.length < l.length := by
  have heq := findSep_append sep l b a h
  have hpos : 0 < sep.length := List.length_pos.mpr hsep
  have : (b ++ sep ++ a).length = l.length := by rw [heq]
  simp [List.length_append] at this
  omega

theorem intercalate_single (sep x : List Char) :
    List.intercalate sep [x] = x := by
  simp [List.intercalate]

theorem pySplitF_ne_nil (sep : List Char) (fuel : Nat) (l : List Char) :
    pySplitF sep fuel l ≠ [] := by
  cases fuel with
  | zero => simp [pySplitF]
  | succ n =>
    rw [pySplitF]
    cases hfs : findSep sep l with
    | none => simp
    | some p => simp

theorem intercalate_cons_of_ne_nil (sep x : List Char) (ys : List (List Char))
    (hy : ys ≠ []) :
    List.intercalate sep (x :: ys) = x ++ sep ++ List.intercalate sep ys := by
  cases ys with
  | nil => exact absurd rfl hy
  | cons z t => simp [List.intercalate, List.append_assoc]

theorem intercalate_pySplitF (sep : List Char) (hsep : sep ≠ []) :
    ∀ fuel l, l.length ≤ fuel →
      List.intercalate sep (pySplitF sep fuel l) = l := by
  intro fuel
  induction fuel with
  | zero =>
    intro l hl
    have h0 : l = [] := List.eq_nil_of_length_eq_zero (Nat.le_zero.mp hl)
    subst h0
    simp [pySplitF, intercalate_single]
  | succ n ih =>
    intro l hl
    rw [pySplitF]
    cases hfs : findSep sep l with
    | none => exact intercalate_single sep l
    | some p =>
      obtain ⟨b, a⟩ := p
      have hlt := findSep_after_length sep hsep l b a hfs
      rw [intercalate_cons_of_ne_nil sep b _ (pySplitF_ne_nil sep n a)]
      rw [ih a (by omega)]
      exact findSep_append sep l b a hfs

theorem intercalate_pySplit (sep : List Char) (hsep : sep ≠ [])
    (l : List Char) : List.intercalate sep (pySplit sep l) = l :=
  intercalate_pySplitF sep hsep l.length l (Nat.le_refl _)

theorem pySplit_of_findSep_none (sep l : List Char)
    (h : findSep sep l = none) : pySplit sep l = [l] := by
  unfold pySplit
  cases hl : l.length with
  | zero => simp [pySplitF]
  | succ n => simp [pySplitF, h]

/-! ## Knowledge base (`backend/services/disease_scraper.py`) -/

/-- One value of the `DISEASE_DATABASE` dict. -/
structure KnowledgeEntry where
  symptoms : List String
  treatment : List String
  prevention : List String
  severity : String
  recovery_days : String
deriving DecidableEq

/-- The static `DISEASE_DATABASE` table, in source (dict-insertion) order;
keys are unique, so an association list models the dict faithfully. -/
def DISEASE_DATABASE : List (String × KnowledgeEntry) := [
  ("Corn_(maize)___Common_rust_",
   { symptoms := ["Small, circular to elongated brown pustules",
                  "Pustules on both leaf surfaces", "Yellowing of leaves"],
     treatment := ["Apply fungicides containing azoxystrobin or propiconazole",
                   "Plant resistant corn hybrids",
                   "Remove and destroy infected plant debris",
                   "Ensure proper plant spacing for air circulation"],
     prevention := ["Use resistant varieties",
                    "Rotate crops with non-host plants",
                    "Apply preventive fungicide sprays during humid weather",
                    "Monitor fields regularly during warm, humid conditions"],
     severity := "Moderate to High",
     recovery_days := "14-21 days with treatment" }),
  ("Corn_(maize)___Northern_Leaf_Blight",
   { symptoms := ["Long, elliptical gray-green lesions",
                  "Lesions turn tan with age", "Lesions parallel to leaf veins"],
     treatment := ["Apply fungicides (strobilurin or triazole-based)",
                   "Remove severely infected leaves",
                   "Improve field drainage",
                   "Reduce plant density if possible"],
     prevention := ["Plant resistant hybrids",
                    "Crop rotation with non-cereal crops",
                    "Bury crop residue after harvest",
                    "Avoid overhead irrigation"],
     severity := "High",
     recovery_days := "21-28 days" }),
  ("Tomato___Early_blight",
   { symptoms := ["Dark brown spots with concentric rings (target-like)",
                  "Lower leaves affected first", "Yellowing around spots"],
     treatment := ["Apply copper-based fungicides or chlorothalonil",
                   "Remove infected lower leaves",
                   "Mulch around plants to prevent soil splash",
                   "Water at base of plants, not overhead"],
     prevention := ["Use disease-resistant varieties",
                    "Rotate crops (3-4 year cycle)",
                    "Space plants properly for air circulation",
                    "Apply preventive fungicide sprays"],
     severity := "Moderate",
     recovery_days := "14-21 days" }),
  ("Tomato___Late_blight",
   { symptoms := ["Water-soaked spots on leaves",
                  "White fuzzy growth on undersides", "Rapid plant collapse",
                  "Brown lesions on fruits"],
     treatment := ["Apply systemic fungicides immediately (mancozeb, chlorothalonil)",
                   "Remove and destroy all infected plants",
                   "Avoid working with wet plants",
                   "Improve air circulation"],
     prevention := ["Plant certified disease-free transplants",
                    "Avoid overhead watering",
                    "Apply preventive fungicides during cool, wet weather",
                    "Remove volunteer potato and tomato plants"],
     severity := "Very High - Can destroy entire crop",
     recovery_days := "Immediate action required - 7-14 days if caught early" }),
  ("Tomato___Bacterial_spot",
   { symptoms := ["Small, dark, greasy-looking spots",
                  "Yellow halos around spots",
                  "Spots on leaves, stems, and fruits"],
     treatment := ["Apply copper-based bactericides",
                   "Remove severely infected plants",
                   "Avoid overhead irrigation",
                   "Disinfect tools between plants"],
     prevention := ["Use disease-free seeds and transplants",
                    "Rotate crops (3-year minimum)",
                    "Avoid working with wet plants",
                    "Use drip irrigation instead of sprinklers"],
     severity := "Moderate to High",
     recovery_days := "21-28 days" }),
  ("Potato___Early_blight",
   { symptoms := ["Dark brown lesions with concentric rings",
                  "Yellowing of older leaves", "Premature leaf drop"],
     treatment := ["Apply fungicides (mancozeb, chlorothalonil)",
                   "Remove infected foliage",
                   "Ensure adequate soil fertility",
                   "Maintain proper irrigation"],
     prevention := ["Plant certified disease-free seed potatoes",
                    "Rotate with non-solanaceous crops",
                    "Destroy crop debris after harvest",
                    "Maintain balanced fertilization"],
     severity := "Moderate",
     recovery_days := "14-21 days" }),
  ("Potato___Late_blight",
   { symptoms := ["Water-soaked lesions on leaves",
                  "White mold on undersides", "Tuber rot", "Rapid plant death"],
     treatment := ["Apply systemic fungicides immediately",
                   "Destroy infected plants completely",
                   "Harvest tubers before disease spreads",
                   "Avoid storing infected tubers"],
     prevention := ["Use resistant varieties",
                    "Apply preventive fungicides in cool, wet weather",
                    "Hill soil around plants",
                    "Destroy volunteer plants"],
     severity := "Very High - Devastating",
     recovery_days := "Immediate action - 7-10 days if early" }),
  ("Pepper,_bell___Bacterial_spot",
   { symptoms := ["Small, dark, raised spots on leaves",
                  "Spots may have yellow halos",
                  "Fruit lesions are raised and corky"],
     treatment := ["Apply copper bactericides",
                   "Remove infected plants",
                   "Improve air circulation",
                   "Avoid overhead watering"],
     prevention := ["Use disease-free seeds",
                    "Rotate crops (3-4 years)",
                    "Disinfect tools and equipment",
                    "Use drip irrigation"],
     severity := "Moderate",
     recovery_days := "21-28 days" }),
  ("Grape___Black_rot",
   { symptoms := ["Circular tan lesions on leaves",
                  "Black, mummified berries", "Brown lesions on shoots"],
     treatment := ["Apply fungicides (mancozeb, myclobutanil)",
                   "Remove mummified berries",
                   "Prune infected canes",
                   "Improve canopy air circulation"],
     prevention := ["Remove all mummified fruit",
                    "Prune for good air circulation",
                    "Apply preventive fungicides from bud break",
                    "Clean up fallen leaves and debris"],
     severity := "High",
     recovery_days := "Season-long management required" }),
  ("Apple___Black_rot",
   { symptoms := ["Purple spots on leaves",
                  "Sunken, black lesions on fruit", "Cankers on branches"],
     treatment := ["Prune out infected branches",
                   "Apply fungicides (captan, thiophanate-methyl)",
                   "Remove infected fruit",
                   "Improve orchard sanitation"],
     prevention := ["Prune dead and diseased wood",
                    "Remove mummified fruit",
                    "Apply dormant sprays",
                    "Maintain tree vigor with proper fertilization"],
     severity := "Moderate to High",
     recovery_days := "Season-long management" })]

/-- `DISEASE_DATABASE.get(disease_name)`: dict lookup. -/
def get_disease_info (disease_name : String) : Option KnowledgeEntry :=
  (DISEASE_DATABASE.find? (fun p => p.1 = disease_name)).map (·.2)

/-- The shape of every dict returned by `scrape_disease_treatment`.
`symptoms` models `disease_data.get("symptoms", [])`: the unknown-disease
dict carries no `symptoms` key, which reads back as `[]`. -/
structure ScrapeResult where
  success : Bool
  disease : String
  crop : String
  symptoms : List String
  treatment : List String
  prevention : List String
  severity : String
  recovery_timeline : String
  source : String
deriving DecidableEq

/-- `scrape_disease_treatment(disease_name, crop_type)`: local-database
lookup; on a miss it still answers `success = True` with general
recommendations. -/
def scrape_disease_treatment (disease_name crop_type : String) : ScrapeResult :=
  match get_disease_info disease_name with
  | some disease_info =>
      { success := true
        disease := disease_name
        crop := crop_type
        symptoms := disease_info.symptoms
        treatment := disease_info.treatment
        prevention := disease_info.prevention
        severity := disease_info.severity
        recovery_timeline := disease_info.recovery_days
        source := "Agricultural Disease Database" }
  | none =>
      { success := true
        disease := disease_name
        crop := crop_type
        symptoms := []
        treatment := ["Consult local agricultural extension for " ++ crop_type
                        ++ " disease management",
                      "Remove and destroy infected plant parts",
                      "Improve air circulation and reduce humidity",
                      "Consider applying broad-spectrum fungicide"]
        prevention := ["Use disease-resistant varieties",
                       "Practice crop rotation",
                       "Maintain proper plant spacing",
                       "Monitor plants regularly for early detection"]
        severity := "Unknown - Requires expert diagnosis"
        recovery_timeline := "Consult agricultural expert"
        source := "General recommendations" }

/-! ## Severity calculator (`disease_service.calculate_severity`) -/

/-- `calculate_severity(area_pct)`. -/
def calculate_severity (area_pct : Nat) : String :=
  if area_pct < 15 then "Low"
  else if area_pct < 35 then "Medium"
  else "High"

/-! ## Classifier adapter and heuristic simulation
    (`backend/ml_models/disease_model.py`) -/

/-- The canonical label separator. -/
def SEP : String := "___"

/-- Exact rational division.  Mathlib marks `Rat.inv` irreducible, which
blocks kernel evaluation of `/` on `ℚ`; `qdiv` is kernel-computable and
`qdiv_eq_div` proves it agrees with `/` everywhere (including the
division-by-zero convention). -/
def qdiv (a b : ℚ) : ℚ := Rat.divInt (a.num * b.den) (a.den * b.num)

theorem qdiv_eq_div (a b : ℚ) : qdiv a b = a / b := by
  unfold qdiv
  rw [Rat.divInt_eq_div]
  push_cast
  by_cases hb : (b.num : ℚ) = 0
  · have hb0 : b = 0 := by
      have hn : b.num = 0 := by exact_mod_cast hb
      exact Rat.num_eq_zero.mp hn
    simp [hb, hb0]
  · have had : ((a.den : ℚ)) ≠ 0 :=
      Nat.cast_ne_zero.mpr (Rat.den_pos a).ne'
    have hbd : ((b.den : ℚ)) ≠ 0 :=
      Nat.cast_ne_zero.mpr (Rat.den_pos b).ne'
    have hbq : b ≠ 0 := by
      intro h
      exact hb (by simp [h])
    have ha' : ((a.num : ℚ)) = a * a.den :=
      (div_eq_iff had).mp (Rat.num_div_den a)
    have hb' : ((b.num : ℚ)) = b * b.den :=
      (div_eq_iff hbd).mp (Rat.num_div_den b)
    rw [div_eq_div_iff (mul_ne_zero had hb) hbq]
    rw [ha', hb']
    ring

/-- Exact rational addition, kernel-computable (Mathlib marks `Rat.add`
irreducible, which blocks kernel evaluation of `+` on `ℚ`);
`qadd_eq_add` proves it agrees with `+`. -/
def qadd (a b : ℚ) : ℚ :=
  Rat.divInt (a.num * b.den + b.num * a.den) (a.den * b.den)

theorem qadd_eq_add (a b : ℚ) : qadd a b = a + b := by
  unfold qadd
  rw [Rat.divInt_eq_div]
  push_cast
  have had : ((a.den : ℚ)) ≠ 0 := Nat.cast_ne_zero.mpr (Rat.den_pos a).ne'
  have hbd : ((b.den : ℚ)) ≠ 0 := Nat.cast_ne_zero.mpr (Rat.den_pos b).ne'
  have ha' : ((a.num : ℚ)) = a * a.den :=
    (div_eq_iff had).mp (Rat.num_div_den a)
  have hb' : ((b.num : ℚ)) = b * b.den :=
    (div_eq_iff hbd).mp (Rat.num_div_den b)
  rw [ha', hb', div_eq_iff (mul_ne_zero had hbd)]
  ring

/-- `CONFIDENCE_THRESHOLD = 0.40`. -/
def CONFIDENCE_THRESHOLD : ℚ := mkRat 40 100

/-- Crop part of a class label:
`class_name.split("___")[0] if "___" in class_name else "Unknown"`. -/
def crop_component (label : String) : String :=
  if pyContains SEP label then (pySplitS SEP label).getD 0 label else "Unknown"

/-- Disease part of a class label:
`class_name.split("___")[1] if "___" in class_name else class_name`. -/
def disease_component (label : String) : String :=
  if pyContains SEP label then (pySplitS SEP label).getD 1 label else label

/-- The classifier-output dict.  `errorMsg` models the presence of the
`"error"` key; `disease_name` and `crop_detected` are `Option` because the
out-of-range dict omits those keys (`detection.get` supplies the default in
the orchestrator). -/
structure Detection where
  disease : String
  disease_name : Option String := none
  crop_detected : Option String := none
  confidence : ℚ
  is_healthy : Bool
  low_confidence : Bool
  errorMsg : Option String := none
  simulation_mode : Bool := false
deriving DecidableEq

/-- The default PlantVillage class table (38 classes) used when
`classes.json` is absent. -/
def default_classes : List String := [
  "Apple___Apple_scab", "Apple___Black_rot", "Apple___Cedar_apple_rust",
  "Apple___healthy", "Blueberry___healthy",
  "Cherry_(including_sour)___Powdery_mildew", "Cherry_(including_sour)___healthy",
  "Corn_(maize)___Cercospora_leaf_spot Gray_leaf_spot", "Corn_(maize)___Common_rust_",
  "Corn_(maize)___Northern_Leaf_Blight", "Corn_(maize)___healthy", "Grape___Black_rot",
  "Grape___Esca_(Black_Measles)", "Grape___Leaf_blight_(Isariopsis_Leaf_Spot)",
  "Grape___healthy", "Orange___Haunglongbing_(Citrus_greening)",
  "Peach___Bacterial_spot", "Peach___healthy", "Pepper,_bell___Bacterial_spot",
  "Pepper,_bell___healthy", "Potato___Early_blight", "Potato___Late_blight",
  "Potato___healthy", "Raspberry___healthy", "Soybean___healthy",
  "Squash___Powdery_mildew", "Strawberry___Leaf_scorch", "Strawberry___healthy",
  "Tomato___Bacterial_spot", "Tomato___Early_blight", "Tomato___Late_blight",
  "Tomato___Leaf_Mold", "Tomato___Septoria_leaf_spot",
  "Tomato___Spider_mites Two-spotted_spider_mite", "Tomato___Target_Spot",
  "Tomato___Tomato_Yellow_Leaf_Curl_Virus", "Tomato___Tomato_mosaic_virus",
  "Tomato___healthy"]

/-- The trained-path tail of `DiseaseClassifier.predict`, after softmax and
argmax produced `(predicted_idx, confidence_value)` (the tensor arithmetic
itself is outside the embedding): bounds validation, then class-name
decomposition.  The in-range dict also carries a `confidence_threshold`
key, which no caller reads and is omitted. -/
def predict (classes : List String) (predicted_idx : Nat)
    (confidence_value : ℚ) : Detection :=
  if predicted_idx ≥ classes.length then
    { disease := "Unknown"
      confidence := confidence_value
      is_healthy := false
      low_confidence := true
      errorMsg := some "Model output index out of range" }
  else
    let class_name := classes.getD predicted_idx ""
    { disease := class_name
      disease_name := some (disease_component class_name)
      crop_detected := some (crop_component class_name)
      confidence := confidence_value
      is_healthy := pyContains "healthy" (pyLower class_name)
      low_confidence := decide (confidence_value < CONFIDENCE_THRESHOLD) }

/-- The feature vector `_intelligent_simulation` extracts from the image
(per-channel means and standard deviations, mean edge-filter response,
bounding-box aspect ratio and fill ratio).  `fill_ratio` is computed by the
source but read by no branch. -/
structure Features where
  r : ℚ
  g : ℚ
  b : ℚ
  r_std : ℚ
  g_std : ℚ
  b_std : ℚ
  edge_intensity : ℚ
  aspect_ratio : ℚ
  fill_ratio : ℚ

/-- `_intelligent_simulation`, as a function of the extracted features:
the priority-ordered decision tree over shape and color indicators. -/
def intelligent_simulation (f : Features) : Detection :=
  let r := f.r
  let g := f.g
  let b := f.b
  let total := qadd (qadd r g) b
  let g_ratio := if total > 0 then qdiv g total else mkRat 33 100
  let edge_intensity := f.edge_intensity
  let aspect_ratio := f.aspect_ratio
  let is_long_leaf := aspect_ratio > mkRat 15 10 ∨ aspect_ratio < mkRat 6 10
  let is_compound_leaf := edge_intensity > 45
  let is_simple_leaf := edge_intensity < 30
  let is_lobed_leaf := 30 ≤ edge_intensity ∧ edge_intensity ≤ 45
  let color_variance := qdiv (qadd (qadd f.r_std f.g_std) f.b_std) 3
  let yellow_indicator := r > 120 ∧ g > 100 ∧ b < 80
  let brown_indicator := r > 100 ∧ g > 70 ∧ b < 60 ∧ r > g
  let dark_spots := r < 80 ∧ g < 80 ∧ b < 80
  let white_mold := r > 200 ∧ g > 200 ∧ b > 200
  let result : String × ℚ :=
    if is_long_leaf ∧ (yellow_indicator ∨ brown_indicator) then
      if g_ratio > mkRat 35 100 then ("Corn_(maize)___Common_rust_", mkRat 85 100)
      else ("Corn_(maize)___Northern_Leaf_Blight", mkRat 82 100)
    else if is_compound_leaf then
      if dark_spots then ("Tomato___Bacterial_spot", mkRat 83 100)
      else if yellow_indicator then ("Tomato___Early_blight", mkRat 79 100)
      else if brown_indicator then ("Potato___Late_blight", mkRat 81 100)
      else if g_ratio > mkRat 45 100 then ("Tomato___healthy", mkRat 78 100)
      else ("Tomato___Target_Spot", mkRat 72 100)
    else if is_simple_leaf ∨ is_lobed_leaf then
      if dark_spots ∧ color_variance > 40 then ("Grape___Black_rot", mkRat 75 100)
      else if brown_indicator ∧ r > 120 then ("Apple___Black_rot", mkRat 76 100)
      else if yellow_indicator ∧ edge_intensity > 20 then
        ("Pepper,_bell___Bacterial_spot", mkRat 74 100)
      else if white_mold then ("Squash___Powdery_mildew", mkRat 80 100)
      else ("Grape___Esca_(Black_Measles)", mkRat 68 100)
    else
      if yellow_indicator then ("Tomato___Early_blight", mkRat 65 100)
      else ("Potato___Early_blight", mkRat 62 100)
  let predicted_class := result.1
  let confidence := result.2
  { disease := predicted_class
    disease_name := some (disease_component predicted_class)
    crop_detected := some (crop_component predicted_class)
    confidence := confidence
    is_healthy := pyContains "healthy" (pyLower predicted_class)
    low_confidence := decide (confidence < CONFIDENCE_THRESHOLD)
    simulation_mode := true }

/-- The fixed dict `_intelligent_simulation` returns from its own
`except` handler (internal-failure default). -/
def simulation_failure_default : Detection :=
  { disease := "Tomato___Early_blight"
    disease_name := some "Early_blight"
    crop_detected := some "Tomato"
    confidence := mkRat 65 100
    is_healthy := false
    low_confidence := false
    simulation_mode := true }

/-! ## Generative-text client (`backend/services/llm_client.py`) -/

inductive TaskType where
  | deep_analysis
  | quick_insight
  | classification
deriving DecidableEq

/-- `GroqLLMClient._fallback_response`. -/
def fallback_response : TaskType → String
  | .deep_analysis =>
      "Detailed analysis is temporarily unavailable. Please ensure GROQ_API_KEY is configured for AI-powered recommendations."
  | .quick_insight =>
      "Quick insights are temporarily unavailable. Please check your API configuration."
  | .classification =>
      "Classification service is temporarily unavailable. Using basic detection methods."

/-- `generate_completion`, abstracted over the network: `api_result = some
content` means one of the three retry attempts returned that content,
`none` means all three attempts raised.  `client_initialized` is whether
`GROQ_API_KEY` was set; `enable_llm_fallback` is `ENABLE_LLM_FALLBACK`. -/
def generate_completion (client_initialized enable_llm_fallback : Bool)
    (api_result : Option String) (task_type : TaskType) :
    Except String String :=
  if !client_initialized then .ok (fallback_response task_type)
  else
    match api_result with
    | some content => .ok content
    | none =>
        if enable_llm_fallback then .ok (fallback_response task_type)
        else .error "Groq API error"

/-- The structured plan schema requested from the LLM. -/
structure Plan where
  treatment : List String
  prevention : List String
  recovery_timeline : String
deriving DecidableEq

/-- The opening-brace character, written by code point to keep brace
characters out of string literals. -/
def lbrace : Char := Char.ofNat 123

/-- The closing-brace character. -/
def rbrace : Char := Char.ofNat 125

/-- The rescue regex of `generate_structured`: greedy DOTALL search for a
brace-delimited span, i.e. from the first opening brace to the last closing
brace after it; `none` when no such span exists. -/
def regex_json_object (s : String) : Option String :=
  match s.data.findIdx? (· = lbrace) with
  | none => none
  | some i =>
      let tail := s.data.drop i
      match tail.reverse.findIdx? (· = rbrace) with
      | none => none
      | some k => some (String.mk (tail.take (tail.length - k)))

/-- `generate_structured`: prompt-building aside, it runs
`generate_completion` in JSON mode and parses the response.  `json_loads`
abstracts Python's `json.loads` composed with reading the three schema
fields (JSON parsing is external to the diagnostic core); `none` models a
`JSONDecodeError` or a response that is not the requested object. -/
def generate_structured (json_loads : String → Option Plan)
    (client_initialized enable_llm_fallback : Bool)
    (api_result : Option String) (task_type : TaskType) :
    Except String Plan :=
  match generate_completion client_initialized enable_llm_fallback
      api_result task_type with
  | .error e => .error e
  | .ok response =>
      match json_loads response with
      | some v => .ok v
      | none =>
          match regex_json_object response with
          | some sub =>
              match json_loads sub with
              | some v => .ok v
              | none => .error "JSONDecodeError"
          | none => .error "JSONDecodeError"

/-- `generate_validated_treatment_plan`: builds the prompt, calls
`generate_structured` with `TaskType.DEEP_ANALYSIS`, and re-raises any
failure to its caller. -/
def generate_validated_treatment_plan (json_loads : String → Option Plan)
    (client_initialized enable_llm_fallback : Bool)
    (api_result : Option String) : Except String Plan :=
  generate_structured json_loads client_initialized enable_llm_fallback
    api_result TaskType.deep_analysis

/-! ## Orchestrator (`backend/services/disease_service.analyze_disease`) -/

/-- The three dict shapes `analyze_disease` can return.  Presentation-only
fields that no claim mentions (`context_used`, the formatted `message`,
`low_confidence_warning`) are omitted; the low-confidence dict carries no
`symptoms` key at all. -/
inductive AnalyzeResult where
  | failure (error : String)
  | lowConfidence (disease_name : String) (confidence : ℚ)
      (severity affected_area : String) (treatment prevention : List String)
  | report (disease_name : String) (confidence : ℚ) (severity : String)
      (affected_area : String) (symptoms treatment prevention : List String)
      (expected_recovery : String) (crop_validated : String)
      (data_source : String)
deriving DecidableEq

/-- Lines 81-88 of `analyze_disease`: normalize the declared and detected
crop names and test them for mismatch (`True` when neither normalized name
is a substring of the other). -/
def crop_mismatch (crop_type detected_disease : String) : Bool :=
  let detected_crop_from_disease :=
    if pyContains "___" detected_disease then
      (pySplitS "___" detected_disease).getD 0 "" else ""
  let user_crop_normalized := pyReplaceS (pyLower crop_type) " " "_"
  let detected_crop_normalized :=
    pyReplaceS (pyReplaceS (pyLower detected_crop_from_disease)
      "_(maize)" "") ",_bell" ""
  !(pyContains user_crop_normalized detected_crop_normalized)
    && !(pyContains detected_crop_normalized user_crop_normalized)

/-- Line 98 of `analyze_disease`:
`[d for d in DISEASE_DATABASE.keys() if crop_type.lower() in d.lower()]`. -/
def user_crop_diseases (crop_type : String) : List String :=
  (DISEASE_DATABASE.map Prod.fst).filter
    (fun d => pyContains (pyLower crop_type) (pyLower d))

/-- Lines 101-110 of `analyze_disease`: among the candidate labels, the
first whose lowered label contains the lowered disease-type substring, or
the first candidate when none matches. -/
def reconcile_pick (disease_type first : String) (restDs : List String) :
    String :=
  match (first :: restDs).find?
      (fun d => pyContains (pyLower disease_type) (pyLower d)) with
  | some matched => matched
  | none => first

/-- Lines 79-117 of `analyze_disease`: remap the detected disease label
when the caller-declared crop mismatches the crop encoded in the label. -/
def reconcile_label (crop_type detected_disease : String) : String :=
  if crop_mismatch crop_type detected_disease then
    let disease_type :=
      if pyContains "___" detected_disease then
        (pySplitS "___" detected_disease).getD 1 "" else "Unknown"
    match user_crop_diseases crop_type with
    | [] => crop_type ++ "___Unknown_disease"
    | first :: restDs => reconcile_pick disease_type first restDs
  else detected_disease

/-- The disease label `analyze_disease` works with after the crop-type
check: the detected label, remapped by `reconcile_label` when a truthy
`crop_type` was declared. -/
def reconciled_disease (detection : Detection) (crop_type : Option String) :
    String :=
  match crop_type with
  | some ct => if ct = "" then detection.disease
               else reconcile_label ct detection.disease
  | none => detection.disease

/-- The `actual_crop` of `analyze_disease`: the declared crop when truthy,
otherwise `detection.get("crop_detected", "Unknown")`. -/
def reconciled_crop (detection : Detection) (crop_type : Option String) :
    String :=
  match crop_type with
  | some ct => if ct = "" then detection.crop_detected.getD "Unknown" else ct
  | none => detection.crop_detected.getD "Unknown"

/-- `analyze_disease`, as a function of: the classifier output `detection`
(the dict produced by `predict` or `_intelligent_simulation`), the optional
caller-declared `crop_type` (`none` or `some ""` are falsy in the source),
the two `random.randint(5, 45)` draws (`affected_area_pct` for the
database-hit path, `affected_area_pct_fb` for the LLM-fallback path), and
the outcome `llm` of `generate_validated_treatment_plan`, consulted only in
the fallback branch; an exception there is caught by the top-level handler
and becomes the structured failure dict.  Weather fetching, `growth_stage`
and the `context_used`/`message` fields are presentation-only enrichment
and omitted. -/
def analyze_disease (detection : Detection) (crop_type : Option String)
    (affected_area_pct affected_area_pct_fb : Nat)
    (llm : Except String Plan) : AnalyzeResult :=
  if detection.errorMsg.isSome then
    .failure "Image analysis failed. Please upload a clear image of the plant leaf or fruit."
  else
    let confidence := detection.confidence
    let low_confidence := detection.low_confidence
    let crop_detected := detection.crop_detected.getD "Unknown"
    let actual_crop := reconciled_crop detection crop_type
    let detected_disease := reconciled_disease detection crop_type
    if low_confidence = true ∨ confidence < CONFIDENCE_THRESHOLD then
      .lowConfidence "Uncertain" confidence "Unknown" "Unknown"
        ["The image quality or lighting is insufficient for accurate diagnosis",
         "Please upload a clearer, well-lit image of the affected plant part",
         "Ensure the diseased area is clearly visible and in focus",
         "Take photo in natural daylight if possible"]
        ["Consult a local agricultural expert for in-person diagnosis",
         "Monitor the plant closely for symptom progression"]
    else
      let disease_data := scrape_disease_treatment detected_disease actual_crop
      if disease_data.success then
        .report detected_disease confidence disease_data.severity
          (toString affected_area_pct ++ "%")
          disease_data.symptoms disease_data.treatment disease_data.prevention
          disease_data.recovery_timeline crop_detected disease_data.source
      else
        match llm with
        | .error e => .failure ("Analysis failed: " ++ e)
        | .ok analysis =>
            .report detected_disease confidence
              (calculate_severity affected_area_pct_fb)
              (toString affected_area_pct_fb ++ "%")
              [] analysis.treatment analysis.prevention
              analysis.recovery_timeline crop_detected "AI Analysis"

/-- The LLM-fallback branch of `analyze_disease` (lines 181-225 together
with the top-level `except` handler), factored out so that its behaviour
can be stated even though `scrape_disease_treatment` never actually reports
a miss: assemble an AI-Analysis report from the LLM outcome, or convert an
exception into the structured failure dict. -/
def assemble_fallback_report (detected_disease : String) (confidence : ℚ)
    (affected_area_pct_fb : Nat) (crop_detected : String)
    (llm : Except String Plan) : AnalyzeResult :=
  match llm with
  | .error e => .failure ("Analysis failed: " ++ e)
  | .ok analysis =>
      .report detected_disease confidence
        (calculate_severity affected_area_pct_fb)
        (toString affected_area_pct_fb ++ "%")
        [] analysis.treatment analysis.prevention
        analysis.recovery_timeline crop_detected "AI Analysis"

/-- Data source of a result (`none` for dict shapes without the key). -/
def AnalyzeResult.dataSource : AnalyzeResult → Option String
  | .report _ _ _ _ _ _ _ _ _ ds => some ds
  | _ => none

/-- Severity field of a result. -/
def AnalyzeResult.severityField : AnalyzeResult → Option String
  | .report _ _ s _ _ _ _ _ _ _ => some s
  | .lowConfidence _ _ s _ _ _ => some s
  | .failure _ => none

/-- Treatment list of a result. -/
def AnalyzeResult.treatmentField : AnalyzeResult → List String
  | .report _ _ _ _ _ t _ _ _ _ => t
  | .lowConfidence _ _ _ _ t _ => t
  | .failure _ => []

/-- Disease name of a result. -/
def AnalyzeResult.diseaseField : AnalyzeResult → Option String
  | .report d _ _ _ _ _ _ _ _ _ => some d
  | .lowConfidence d _ _ _ _ _ => some d
  | .failure _ => none

/-- Whether the result is the low-confidence early return. -/
def AnalyzeResult.isLowConf : AnalyzeResult → Bool
  | .lowConfidence _ _ _ _ _ _ => true
  | _ => false

/-- Whether the result is the structured failure dict (`success = False`). -/
def AnalyzeResult.isFailure : AnalyzeResult → Bool
  | .failure _ => true
  | _ => false

/-! ## Shared helper lemmas -/

theorem mk_append (a b : List Char) :
    String.mk a ++ String.mk b = String.mk (a ++ b) := rfl

/-- `scrape_disease_treatment` answers `success = True` on every input,
hit or miss. -/
theorem scrape_always_success (n c : String) :
    (scrape_disease_treatment n c).success = true := by
  unfold scrape_disease_treatment
  cases get_disease_info n <;> rfl

/-- The source of a scrape result is one of the two fixed strings. -/
theorem scrape_source_cases (n c : String) :
    (scrape_disease_treatment n c).source = "Agricultural Disease Database" ∨
      (scrape_disease_treatment n c).source = "General recommendations" := by
  unfold scrape_disease_treatment
  cases get_disease_info n
  · exact Or.inr rfl
  · exact Or.inl rfl

/-! ## C7: severity tiers -/

/-- C7: the severity calculator maps every affected-area percentage to
exactly one tier: below 15 to Low, 15 to 34 to Medium, 35 and above to
High; in particular 14 gives Low, 15 and 34 give Medium, 35 gives High. -/
theorem C7_severity_tiers :
    (∀ a : Nat,
      (calculate_severity a = "Low" ↔ a < 15) ∧
      (calculate_severity a = "Medium" ↔ 15 ≤ a ∧ a < 35) ∧
      (calculate_severity a = "High" ↔ 35 ≤ a)) ∧
    calculate_severity 14 = "Low" ∧ calculate_severity 15 = "Medium" ∧
    calculate_severity 34 = "Medium" ∧ calculate_severity 35 = "High" := by
  refine ⟨fun a => ?_, by decide, by decide, by decide, by decide⟩
  unfold calculate_severity
  split_ifs with h1 h2 <;>
    refine ⟨⟨fun hs => ?_, fun hb => ?_⟩, ⟨fun hs => ?_, fun hb => ?_⟩,
      ⟨fun hs => ?_, fun hb => ?_⟩⟩ <;>
    first
      | rfl
      | omega
      | (exact absurd hs (by decide))

/-! ## C8: label round-trip -/

/-- C8: for every class label that the canonical separator splits into
exactly two components, re-composing the crop component, the separator and
the disease component reproduces the original label string. -/
theorem C8_label_roundtrip (label : String)
    (h : (pySplitS SEP label).length = 2) :
    crop_component label ++ SEP ++ disease_component label = label := by
  have hsep : SEP.data ≠ [] := by decide
  have hlen : (pySplit SEP.data label.data).length = 2 := by
    simpa [pySplitS] using h
  obtain ⟨x, y, hxy⟩ : ∃ x y, pySplit SEP.data label.data = [x, y] := by
    match hm : pySplit SEP.data label.data with
    | [] => rw [hm] at hlen; simp at hlen
    | [x] => rw [hm] at hlen; simp at hlen
    | [x, y] => exact ⟨x, y, rfl⟩
    | x :: y :: z :: t => rw [hm] at hlen; simp at hlen
  have hjoin := intercalate_pySplit SEP.data hsep label.data
  rw [hxy] at hjoin
  rw [intercalate_cons_of_ne_nil _ _ _ (by simp), intercalate_single] at hjoin
  have hfs : (findSep SEP.data label.data).isSome = true := by
    cases hq : findSep SEP.data label.data with
    | some p => rfl
    | none =>
        have hone := pySplit_of_findSep_none SEP.data label.data hq
        rw [hone] at hxy
        exact absurd (congrArg List.length hxy) (by simp)
  have hcont : pyContains SEP label = true := by
    simp [pyContains, containsSub, hfs]
  have h0 : crop_component label = String.mk x := by
    simp [crop_component, hcont, pySplitS, hxy]
  have h1 : disease_component label = String.mk y := by
    simp [disease_component, hcont, pySplitS, hxy]
  rw [h0, h1]
  have hS : SEP = String.mk SEP.data := rfl
  rw [hS, mk_append, mk_append]
  rw [hjoin]

/-- Witness for C8 at the spec's example label. -/
theorem C8_label_roundtrip_witness :
    (pySplitS SEP "Tomato___Early_blight").length = 2 ∧
    crop_component "Tomato___Early_blight" = "Tomato" ∧
    disease_component "Tomato___Early_blight" = "Early_blight" ∧
    crop_component "Tomato___Early_blight" ++ SEP ++
      disease_component "Tomato___Early_blight" = "Tomato___Early_blight" :=
  ⟨by decide, by decide, by decide,
    C8_label_roundtrip "Tomato___Early_blight" (by decide)⟩

/-! ## C1: knowledge-base lookup, generative fallback, data sources -/

/-- A high-confidence in-range detection whose label has no knowledge-base
entry (input for the C1 counterexample). -/
def c1_detection : Detection :=
  { disease := "Tomato___Tomato_mosaic_virus"
    disease_name := some "Tomato_mosaic_virus"
    crop_detected := some "Tomato"
    confidence := mkRat 9 10
    is_healthy := false
    low_confidence := false }

/-- C1 counterexample: for the label "Tomato___Tomato_mosaic_virus", which
has no entry in the static table, the orchestrator does not invoke the
Generative Fallback — even with a failing LLM outcome the diagnosis
succeeds — and the assembled report carries data source
"General recommendations", not "AI Analysis". -/
theorem C1_counterexample :
    get_disease_info "Tomato___Tomato_mosaic_virus" = none ∧
    (analyze_disease c1_detection none 20 20
        (Except.error "generative service unavailable")).dataSource =
      some "General recommendations" ∧
    (analyze_disease c1_detection none 20 20
        (Except.error "generative service unavailable")).isFailure = false ∧
    ("General recommendations" : String) ≠ "AI Analysis" := by
  decide

/-- C1 (amended): the lookup misses exactly when the label has no entry in
the static table, and on a hit the stored entry is returned verbatim with
source "Agricultural Disease Database"; but a miss still yields a
`success = True` result with general recommendations and source
"General recommendations", so the orchestrator never takes its
generative-fallback branch and no assembled report carries data source
"AI Analysis". -/
theorem C1_lookup_and_sources :
    (∀ name : String,
      (get_disease_info name).isSome = true ↔
        name ∈ DISEASE_DATABASE.map Prod.fst) ∧
    (∀ name ct : String, ∀ e : KnowledgeEntry,
      get_disease_info name = some e →
      scrape_disease_treatment name ct =
        { success := true, disease := name, crop := ct,
          symptoms := e.symptoms, treatment := e.treatment,
          prevention := e.prevention, severity := e.severity,
          recovery_timeline := e.recovery_days,
          source := "Agricultural Disease Database" }) ∧
    (∀ name ct : String, get_disease_info name = none →
      (scrape_disease_treatment name ct).success = true ∧
      (scrape_disease_treatment name ct).source = "General recommendations") ∧
    (∀ (d : Detection) (ctv : Option String) (a1 a2 : Nat)
        (llm : Except String Plan),
      (analyze_disease d ctv a1 a2 llm).dataSource ≠ some "AI Analysis") := by
  refine ⟨?_, ?_, ?_, ?_⟩
  · intro name
    constructor
    · intro h
      unfold get_disease_info at h
      cases hf : DISEASE_DATABASE.find? (fun p => p.1 = name) with
      | none => rw [hf] at h; simp at h
      | some p =>
          have hp : p ∈ DISEASE_DATABASE := List.mem_of_find?_eq_some hf
          have hpe := List.find?_some hf
          simp only [decide_eq_true_eq] at hpe
          exact List.mem_map.mpr ⟨p, hp, hpe⟩
    · intro h
      obtain ⟨p, hp, he⟩ := List.mem_map.mp h
      unfold get_disease_info
      cases hf : DISEASE_DATABASE.find? (fun p => p.1 = name) with
      | some q => rfl
      | none =>
          exfalso
          have hnone := List.find?_eq_none.mp hf p hp
          simp [he] at hnone
  · intro name ct e h
    unfold scrape_disease_treatment
    rw [h]
  · intro name ct h
    unfold scrape_disease_treatment
    rw [h]
    exact ⟨rfl, rfl⟩
  · intro d ctv a1 a2 llm
    unfold analyze_disease
    split
    · simp [AnalyzeResult.dataSource]
    · dsimp only
      split
      · simp [AnalyzeResult.dataSource]
      · rw [if_pos (scrape_always_success _ _)]
        rcases scrape_source_cases (reconciled_disease d ctv)
            (reconciled_crop d ctv) with h | h <;>
          simp [AnalyzeResult.dataSource, h]

/-- Witness for C1 at a concrete hit ("Grape___Black_rot") and a concrete
miss ("Banana___Leaf_spot"). -/
theorem C1_lookup_and_sources_witness :
    scrape_disease_treatment "Grape___Black_rot" "Grape" =
      { success := true, disease := "Grape___Black_rot", crop := "Grape",
        symptoms := ["Circular tan lesions on leaves",
                     "Black, mummified berries", "Brown lesions on shoots"],
        treatment := ["Apply fungicides (mancozeb, myclobutanil)",
                      "Remove mummified berries",
                      "Prune infected canes",
                      "Improve canopy air circulation"],
        prevention := ["Remove all mummified fruit",
                       "Prune for good air circulation",
                       "Apply preventive fungicides from bud break",
                       "Clean up fallen leaves and debris"],
        severity := "High",
        recovery_timeline := "Season-long management required",
        source := "Agricultural Disease Database" } ∧
    (scrape_disease_treatment "Banana___Leaf_spot" "Banana").success = true ∧
    (scrape_disease_treatment "Banana___Leaf_spot" "Banana").source =
      "General recommendations" :=
  ⟨C1_lookup_and_sources.2.1 "Grape___Black_rot" "Grape"
      ⟨["Circular tan lesions on leaves", "Black, mummified berries",
        "Brown lesions on shoots"],
       ["Apply fungicides (mancozeb, myclobutanil)",
        "Remove mummified berries", "Prune infected canes",
        "Improve canopy air circulation"],
       ["Remove all mummified fruit", "Prune for good air circulation",
        "Apply preventive fungicides from bud break",
        "Clean up fallen leaves and debris"],
       "High", "Season-long management required"⟩ (by decide),
   C1_lookup_and_sources.2.2.1 "Banana___Leaf_spot" "Banana" (by decide)⟩

/-! ## C2: low-confidence early return -/

/-- An in-range detection at confidence 0.30 (input for the C2
counterexample and witness). -/
def c2_detection : Detection :=
  { disease := "Tomato___Late_blight"
    crop_detected := some "Tomato"
    confidence := mkRat 3 10
    is_healthy := false
    low_confidence := false }

/-- C2 counterexample: at confidence 0.30 (below the 0.40 threshold) the
early return reports disease "Uncertain" but its treatment list is the
fixed four-item guidance list, not empty as claimed. -/
theorem C2_counterexample :
    c2_detection.confidence < CONFIDENCE_THRESHOLD ∧
    (analyze_disease c2_detection none 20 20
        (Except.error "x")).diseaseField = some "Uncertain" ∧
    (analyze_disease c2_detection none 20 20
        (Except.error "x")).treatmentField ≠ [] ∧
    (analyze_disease c2_detection none 20 20
        (Except.error "x")).treatmentField.length = 4 := by
  decide

/-- C2 (amended): whenever the detection is flagged low-confidence or its
confidence is below 0.40, the diagnosis returns early with disease
"Uncertain", the measured confidence, severity and affected-area literals
"Unknown", a fixed four-item guidance treatment list and a fixed two-item
prevention list (and no symptoms field), independently of the label, the
knowledge base, the area draws and the LLM outcome — so no knowledge-base
lookup or severity computation is performed (the severity calculator never
outputs "Unknown"). -/
theorem C2_low_confidence_return :
    (∀ (d : Detection) (ct : Option String) (a1 a2 : Nat)
        (llm : Except String Plan),
      d.errorMsg = none →
      (d.low_confidence = true ∨ d.confidence < CONFIDENCE_THRESHOLD) →
      analyze_disease d ct a1 a2 llm =
        .lowConfidence "Uncertain" d.confidence "Unknown" "Unknown"
          ["The image quality or lighting is insufficient for accurate diagnosis",
           "Please upload a clearer, well-lit image of the affected plant part",
           "Ensure the diseased area is clearly visible and in focus",
           "Take photo in natural daylight if possible"]
          ["Consult a local agricultural expert for in-person diagnosis",
           "Monitor the plant closely for symptom progression"]) ∧
    (∀ a : Nat, calculate_severity a ≠ "Unknown") := by
  constructor
  · intro d ct a1 a2 llm hErr hGate
    unfold analyze_disease
    rw [hErr]
    rw [if_neg (by simp)]
    dsimp only
    rw [if_pos hGate]
  · intro a
    unfold calculate_severity
    split_ifs <;> decide

/-- Witness for C2 at the concrete 0.30-confidence detection. -/
theorem C2_low_confidence_return_witness :
    analyze_disease c2_detection (some "Potato") 7 9
        (Except.ok ⟨[], [], ""⟩) =
      .lowConfidence "Uncertain" c2_detection.confidence "Unknown" "Unknown"
        ["The image quality or lighting is insufficient for accurate diagnosis",
         "Please upload a clearer, well-lit image of the affected plant part",
         "Ensure the diseased area is clearly visible and in focus",
         "Take photo in natural daylight if possible"]
        ["Consult a local agricultural expert for in-person diagnosis",
         "Monitor the plant closely for symptom progression"] :=
  C2_low_confidence_return.1 c2_detection (some "Potato") 7 9
    (Except.ok ⟨[], [], ""⟩) rfl (Or.inr (by decide))

/-! ## C3: crop reconciliation -/

/-- `reconcile_pick` always returns one of its candidates. -/
theorem reconcile_pick_mem (dt first : String) (restDs : List String) :
    reconcile_pick dt first restDs ∈ first :: restDs := by
  unfold reconcile_pick
  cases hf : (first :: restDs).find?
      (fun d => pyContains (pyLower dt) (pyLower d)) with
  | some matched => exact List.mem_of_find?_eq_some hf
  | none => exact List.mem_cons_self first restDs

/-- The three possible shapes of a reconciled label: unchanged on a match,
an element of the filtered candidate list, or the synthesized label when
the candidate list is empty. -/
theorem reconcile_cases (ct dd : String) :
    reconcile_label ct dd = dd ∨
    reconcile_label ct dd ∈ user_crop_diseases ct ∨
    (reconcile_label ct dd = ct ++ "___Unknown_disease" ∧
      user_crop_diseases ct = []) := by
  by_cases h : crop_mismatch ct dd
  · unfold reconcile_label
    rw [if_pos h]
    dsimp only
    cases hc : user_crop_diseases ct with
    | nil => exact Or.inr (Or.inr ⟨rfl, rfl⟩)
    | cons first restDs =>
        exact Or.inr (Or.inl (reconcile_pick_mem _ first restDs))
  · unfold reconcile_label
    rw [if_neg h]
    exact Or.inl rfl

/-- C3 (amended): the mismatch search does not compare crop components: it
keeps every knowledge-base label containing the declared crop as a
case-insensitive substring anywhere in the label, prefers one whose full
label contains the detected disease-type substring, otherwise takes the
first such label in table order, and synthesizes
"<DeclaredCrop>___Unknown_disease" exactly when no label contains the
declared crop; every reconciled label is either the detected label itself,
a knowledge-base label containing the declared crop as substring, or the
synthesized label.  The concrete instance holds as claimed: detected
"Corn_(maize)___Common_rust_" with declared crop "Tomato" yields
"Tomato___Early_blight", whose crop component is "Tomato" and which is in
the knowledge base. -/
theorem C3_reconciliation :
    (reconcile_label "Tomato" "Corn_(maize)___Common_rust_" =
        "Tomato___Early_blight" ∧
     crop_component "Tomato___Early_blight" = "Tomato" ∧
     "Tomato___Early_blight" ∈ DISEASE_DATABASE.map Prod.fst) ∧
    (∀ ct dd : String,
      reconcile_label ct dd = dd ∨
      (reconcile_label ct dd ∈ DISEASE_DATABASE.map Prod.fst ∧
        pyContains (pyLower ct) (pyLower (reconcile_label ct dd)) = true) ∨
      (reconcile_label ct dd = ct ++ "___Unknown_disease" ∧
        ∀ k ∈ DISEASE_DATABASE.map Prod.fst,
          pyContains (pyLower ct) (pyLower k) = false)) := by
  refine ⟨by decide, ?_⟩
  intro ct dd
  rcases reconcile_cases ct dd with h | h | ⟨h1, h2⟩
  · exact Or.inl h
  · refine Or.inr (Or.inl ?_)
    have hm := List.mem_filter.mp h
    exact ⟨hm.1, hm.2⟩
  · refine Or.inr (Or.inr ⟨h1, ?_⟩)
    intro k hk
    have := List.filter_eq_nil_iff.mp h2 k hk
    simpa using this

/-- Witness for C3: the general disjunction at the concrete declared crop
"Tomato" and detected label "Corn_(maize)___Common_rust_". -/
theorem C3_reconciliation_witness :
    reconcile_label "Tomato" "Corn_(maize)___Common_rust_" =
        "Corn_(maize)___Common_rust_" ∨
    (reconcile_label "Tomato" "Corn_(maize)___Common_rust_" ∈
        DISEASE_DATABASE.map Prod.fst ∧
      pyContains (pyLower "Tomato")
        (pyLower (reconcile_label "Tomato" "Corn_(maize)___Common_rust_")) =
        true) ∨
    (reconcile_label "Tomato" "Corn_(maize)___Common_rust_" =
        "Tomato" ++ "___Unknown_disease" ∧
      ∀ k ∈ DISEASE_DATABASE.map Prod.fst,
        pyContains (pyLower "Tomato") (pyLower k) = false) :=
  C3_reconciliation.2 "Tomato" "Corn_(maize)___Common_rust_"

/-- C3 counterexample: with declared crop "rot" (which is the crop
component of no knowledge-base label) and detected label
"Tomato___Early_blight", reconciliation returns "Grape___Black_rot" — a
label of a different crop — rather than searching labels of the declared
crop or synthesizing "rot___Unknown_disease". -/
theorem C3_counterexample :
    reconcile_label "rot" "Tomato___Early_blight" = "Grape___Black_rot" ∧
    crop_component "Grape___Black_rot" = "Grape" ∧
    ("Grape" : String) ≠ "rot" ∧
    (∀ k ∈ DISEASE_DATABASE.map Prod.fst, crop_component k ≠ "rot") ∧
    ("Grape___Black_rot" : String) ≠ "rot" ++ "___Unknown_disease" := by
  decide

/-! ## C4: compound-leaf branch set -/

/-- The compound-leaf branch label set of the heuristic classifier. -/
def compound_branch_set : List String :=
  ["Tomato___Bacterial_spot", "Tomato___Early_blight", "Potato___Late_blight",
   "Tomato___healthy", "Tomato___Target_Spot"]

/-- A feature vector with edge intensity above 45 that also satisfies the
higher-priority long-leaf branch (C4 counterexample input): aspect ratio
2.0, yellow indicator true. -/
def c4_features : Features :=
  { r := 150, g := 110, b := 50, r_std := 10, g_std := 10, b_std := 10,
    edge_intensity := 50, aspect_ratio := 2, fill_ratio := mkRat 5 10 }

/-- C4 counterexample: a feature vector with edge intensity 50 (above 45)
but a long-leaf aspect ratio and a yellow indicator is classified by the
long-leaf priority branch as "Corn_(maize)___Common_rust_", which is not in
the compound-leaf branch set — the claim fails for vectors that hit the
higher-priority branch. -/
theorem C4_counterexample :
    c4_features.edge_intensity > 45 ∧
    (intelligent_simulation c4_features).disease =
      "Corn_(maize)___Common_rust_" ∧
    "Corn_(maize)___Common_rust_" ∉ compound_branch_set := by
  decide

/-- C4 (amended): for every feature vector with edge intensity above 45
that does not satisfy the higher-priority long-leaf branch (elongated
aspect ratio together with a yellow or brown color indicator), the
heuristic classifier returns a label from the compound-leaf branch set;
the long-leaf branch takes priority over edge intensity. -/
theorem C4_compound_branch (f : Features)
    (hedge : f.edge_intensity > 45)
    (hnotlong :
      ¬ ((f.aspect_ratio > mkRat 15 10 ∨ f.aspect_ratio < mkRat 6 10) ∧
        ((f.r > 120 ∧ f.g > 100 ∧ f.b < 80) ∨
         (f.r > 100 ∧ f.g > 70 ∧ f.b < 60 ∧ f.r > f.g)))) :
    (intelligent_simulation f).disease ∈ compound_branch_set := by
  unfold intelligent_simulation
  dsimp only
  rw [if_neg hnotlong]
  rw [if_pos hedge]
  split_ifs <;> decide

/-- A dark-spotted compound-leaf feature vector (C4 witness input). -/
def c4w_features : Features :=
  { r := 70, g := 70, b := 70, r_std := 10, g_std := 10, b_std := 10,
    edge_intensity := 50, aspect_ratio := 1, fill_ratio := mkRat 5 10 }

/-- Witness for C4 at a concrete non-long-leaf vector. -/
theorem C4_compound_branch_witness :
    (intelligent_simulation c4w_features).disease ∈ compound_branch_set :=
  C4_compound_branch c4w_features (by decide) (by decide)

/-! ## C5: out-of-range class index -/

/-- C5 counterexample: at argmax index 38 (the default class table has 38
entries, indices 0-37) the adapter does return the annotated Unknown
result, but the orchestrator checks the error annotation first and turns
the diagnosis into the structured failure dict with a user-facing message;
the Unknown-disease result never reaches the caller, refuting the surfacing
half of the claim. -/
theorem C5_counterexample :
    predict default_classes 38 (mkRat 5 10) =
      { disease := "Unknown", confidence := mkRat 5 10, is_healthy := false,
        low_confidence := true,
        errorMsg := some "Model output index out of range" } ∧
    analyze_disease (predict default_classes 38 (mkRat 5 10)) none 10 10
        (Except.error "x") =
      .failure "Image analysis failed. Please upload a clear image of the plant leaf or fruit." ∧
    (analyze_disease (predict default_classes 38 (mkRat 5 10)) none 10 10
        (Except.error "x")).diseaseField = none := by
  decide

/-- C5 (amended): when the argmax index is out of range of the class
table, the adapter returns disease "Unknown" with the measured confidence,
lowConfidence = true and an explicit error annotation (a value, not a
crash); the orchestrator, however, detects the annotation and returns the
structured failure dict (success = False) rather than surfacing an
Unknown-disease report. -/
theorem C5_out_of_range (classes : List String) (idx : Nat) (conf : Rat)
    (ct : Option String) (a1 a2 : Nat) (llm : Except String Plan)
    (h : idx ≥ classes.length) :
    predict classes idx conf =
      { disease := "Unknown", confidence := conf, is_healthy := false,
        low_confidence := true,
        errorMsg := some "Model output index out of range" } ∧
    analyze_disease (predict classes idx conf) ct a1 a2 llm =
      .failure "Image analysis failed. Please upload a clear image of the plant leaf or fruit." := by
  have hp : predict classes idx conf =
      { disease := "Unknown", confidence := conf, is_healthy := false,
        low_confidence := true,
        errorMsg := some "Model output index out of range" } := by
    unfold predict
    rw [if_pos h]
  refine ⟨hp, ?_⟩
  rw [hp]
  rfl

/-- Witness for C5 at index 38 of the 38-entry default class table. -/
theorem C5_out_of_range_witness :
    predict default_classes 38 (mkRat 5 10) =
      { disease := "Unknown", confidence := mkRat 5 10, is_healthy := false,
        low_confidence := true,
        errorMsg := some "Model output index out of range" } ∧
    analyze_disease (predict default_classes 38 (mkRat 5 10)) (some "Corn")
        12 13 (Except.ok ⟨[], [], ""⟩) =
      .failure "Image analysis failed. Please upload a clear image of the plant leaf or fruit." :=
  C5_out_of_range default_classes 38 (mkRat 5 10) (some "Corn") 12 13
    (Except.ok ⟨[], [], ""⟩) (by decide)

/-! ## C6: generative-failure handling -/

/-- C6: when all three Groq attempts fail, `generate_structured` raises
even with `ENABLE_LLM_FALLBACK` on — the canned fallback text is prose, so
any JSON parse rejects it (hypothesis `hJ`) and the brace-regex rescue
finds no brace-delimited span in it (computed) — and the orchestrator's
fallback branch turns that exception into the structured failure dict
(`success = False`) instead of assembling a report; with fallback off the
raw API error propagates the same way.  (In the shipped pipeline the
branch is additionally unreachable, since `scrape_disease_treatment`
always reports success.) -/
theorem C6_llm_failure_fails_diagnosis
    (json_loads : String → Option Plan)
    (hJ : json_loads (fallback_response TaskType.deep_analysis) = none)
    (dd : String) (conf : Rat) (afb : Nat) (cd : String) :
    generate_validated_treatment_plan json_loads true true none =
      Except.error "JSONDecodeError" ∧
    assemble_fallback_report dd conf afb cd
        (generate_validated_treatment_plan json_loads true true none) =
      .failure "Analysis failed: JSONDecodeError" ∧
    generate_validated_treatment_plan json_loads true false none =
      Except.error "Groq API error" ∧
    assemble_fallback_report dd conf afb cd
        (generate_validated_treatment_plan json_loads true false none) =
      .failure "Analysis failed: Groq API error" := by
  have hreg : regex_json_object (fallback_response TaskType.deep_analysis) =
      none := by decide
  have h1 : generate_validated_treatment_plan json_loads true true none =
      Except.error "JSONDecodeError" := by
    have hcomp : generate_completion true true none TaskType.deep_analysis =
        Except.ok (fallback_response TaskType.deep_analysis) := rfl
    unfold generate_validated_treatment_plan generate_structured
    rw [hcomp]
    dsimp only
    rw [hJ, hreg]
  have h3 : generate_validated_treatment_plan json_loads true false none =
      Except.error "Groq API error" := rfl
  refine ⟨h1, ?_, h3, ?_⟩
  · rw [h1]
    rfl
  · rw [h3]
    rfl

/-- Witness for C6 with a concrete parse function that rejects the canned
text (as Python's `json.loads` does, the text being prose). -/
theorem C6_llm_failure_fails_diagnosis_witness :
    generate_validated_treatment_plan (fun _ => none) true true none =
      Except.error "JSONDecodeError" ∧
    assemble_fallback_report "Tomato___Late_blight" (mkRat 9 10) 20 "Tomato"
        (generate_validated_treatment_plan (fun _ => none) true true none) =
      .failure "Analysis failed: JSONDecodeError" ∧
    generate_validated_treatment_plan (fun _ => none) true false none =
      Except.error "Groq API error" ∧
    assemble_fallback_report "Tomato___Late_blight" (mkRat 9 10) 20 "Tomato"
        (generate_validated_treatment_plan (fun _ => none) true false none) =
      .failure "Analysis failed: Groq API error" :=
  C6_llm_failure_fails_diagnosis (fun _ => none) rfl "Tomato___Late_blight"
    (mkRat 9 10) 20 "Tomato"

/-! ## C9: heuristic simulation never low-confidence -/

/-- A gate-passing detection never produces the low-confidence early
return. -/
theorem analyze_not_lowconf (d : Detection) (ct : Option String)
    (a1 a2 : Nat) (llm : Except String Plan)
    (hErr : d.errorMsg = none) (hl : d.low_confidence = false)
    (hc : ¬ d.confidence < CONFIDENCE_THRESHOLD) :
    (analyze_disease d ct a1 a2 llm).isLowConf = false := by
  unfold analyze_disease
  rw [hErr]
  rw [if_neg (by simp)]
  dsimp only
  rw [if_neg (by simp [hl, hc])]
  rw [if_pos (scrape_always_success _ _)]
  rfl

/-- C9: every heuristic-simulation result, including the internal-failure
default, has confidence at least 0.62 and low_confidence = false;
consequently, whenever the trained model is unavailable, the orchestrator
low-confidence early-return branch is never taken. -/
theorem C9_simulation_confidence :
    (∀ f : Features,
      mkRat 62 100 ≤ (intelligent_simulation f).confidence ∧
      (intelligent_simulation f).low_confidence = false) ∧
    (mkRat 62 100 ≤ simulation_failure_default.confidence ∧
      simulation_failure_default.low_confidence = false) ∧
    (∀ (f : Features) (ct : Option String) (a1 a2 : Nat)
        (llm : Except String Plan),
      (analyze_disease (intelligent_simulation f) ct a1 a2 llm).isLowConf
        = false ∧
      (analyze_disease simulation_failure_default ct a1 a2 llm).isLowConf
        = false) := by
  have hsim : ∀ f : Features,
      mkRat 62 100 ≤ (intelligent_simulation f).confidence ∧
      (intelligent_simulation f).low_confidence = false := by
    intro f
    unfold intelligent_simulation
    dsimp only
    split_ifs <;> decide
  refine ⟨hsim, by decide, ?_⟩
  intro f ct a1 a2 llm
  have hth : CONFIDENCE_THRESHOLD ≤ mkRat 62 100 := by decide
  constructor
  · exact analyze_not_lowconf (intelligent_simulation f) ct a1 a2 llm rfl
      (hsim f).2 (not_lt.mpr (le_trans hth (hsim f).1))
  · exact analyze_not_lowconf simulation_failure_default ct a1 a2 llm rfl
      rfl (by decide)

/-! ## C10: severity copied verbatim on a knowledge-base hit -/

/-- C10: on a knowledge-base hit the report severity is the stored entry
severity verbatim — e.g. "Very High - Can destroy entire crop" for
Tomato late blight, outside the Low/Medium/High tier set — while the
severity calculator, whose range is exactly {Low, Medium, High}, is
applied only in the generative-fallback branch. -/
theorem C10_severity_verbatim :
    (∀ (d : Detection) (ct : Option String) (a1 a2 : Nat)
        (llm : Except String Plan) (e : KnowledgeEntry),
      d.errorMsg = none →
      d.low_confidence = false →
      ¬ d.confidence < CONFIDENCE_THRESHOLD →
      get_disease_info (reconciled_disease d ct) = some e →
      (analyze_disease d ct a1 a2 llm).severityField = some e.severity) ∧
    ((get_disease_info "Tomato___Late_blight").map KnowledgeEntry.severity =
        some "Very High - Can destroy entire crop" ∧
      "Very High - Can destroy entire crop" ∉
        (["Low", "Medium", "High"] : List String)) ∧
    (∀ a : Nat, calculate_severity a ∈
      (["Low", "Medium", "High"] : List String)) ∧
    (∀ (dd : String) (conf : Rat) (afb : Nat) (cd : String) (p : Plan),
      (assemble_fallback_report dd conf afb cd (Except.ok p)).severityField =
        some (calculate_severity afb)) := by
  refine ⟨?_, by decide, ?_, ?_⟩
  · intro d ct a1 a2 llm e hErr hl hc hdb
    unfold analyze_disease
    rw [hErr]
    rw [if_neg (by simp)]
    dsimp only
    rw [if_neg (by simp [hl, hc])]
    rw [if_pos (scrape_always_success _ _)]
    have hsv : (scrape_disease_treatment (reconciled_disease d ct)
        (reconciled_crop d ct)).severity = e.severity := by
      unfold scrape_disease_treatment
      rw [hdb]
    simp [AnalyzeResult.severityField, hsv]
  · intro a
    unfold calculate_severity
    split_ifs <;> decide
  · intro dd conf afb cd p
    rfl

/-- A high-confidence detection of Tomato late blight (C10 witness
input). -/
def c10_detection : Detection :=
  { disease := "Tomato___Late_blight", crop_detected := some "Tomato",
    confidence := mkRat 9 10, is_healthy := false, low_confidence := false }

/-- Witness for C10 at the Tomato late blight entry (table index 3). -/
theorem C10_severity_verbatim_witness :
    (analyze_disease c10_detection none 20 21
        (Except.error "x")).severityField =
      some ((DISEASE_DATABASE.getD 3 ("", ⟨[], [], [], "", ""⟩)).2).severity :=
  C10_severity_verbatim.1 c10_detection none 20 21 (Except.error "x")
    ((DISEASE_DATABASE.getD 3 ("", ⟨[], [], [], "", ""⟩)).2)
    rfl rfl (by decide) (by decide)

end AgroVibe
